import Mathlib

/-!
Verification development for the DEEP token burn watcher
(repository watch-deep-burn). The definitions below are a shallow
embedding of the TypeScript sources. The authoritative file is the
multi-topic watcher (src/unnamed/part_000, the DeepBurnWatcher class
with treasury / circulating-supply support); src/index.ts is an older
single-topic variant of the same program.

Modelling conventions:
- JavaScript numbers carrying token amounts and balances are modelled
  as rationals (the spec calls them decimal quantities; every value the
  program manipulates here is a scaled integer, exactly representable).
- Timestamps (milliseconds since epoch, from Date.now and
  event.timestampMs) are modelled as integers.
- Raw event payload fields are modelled as optional strings, the shape
  Sui JSON payloads use for u64 amounts. The JS truthiness test
  `if (obj.field)` on such a field is: the field is present and is a
  non-empty string.
- `Number(s)` is modelled for strings of an optional minus sign
  followed by decimal digits; on other strings the model returns 0
  (JS would return NaN there; no claim evaluates the model on such a
  string, and the empty string, for which JS Number returns 0, is
  handled exactly).
- Asynchronous RPC calls are modelled by passing their outcome
  (success with a value, or an error) as an explicit argument.
-/

set_option autoImplicit false

namespace DeepBurn

/-- DEEP token has 6 decimals (DEEP_DECIMALS constant in the source). -/
def DEEP_DECIMALS : ℕ := 6

/-- The 24-hour window in milliseconds used by calculateBurnRates. -/
def WINDOW_MS : ℤ := 86400000

/-- The event-history cap applied in processBurnEventData. -/
def HISTORY_CAP : ℕ := 100

/-- Numeric value of a list of decimal digit characters; none when a
non-digit occurs. The empty list yields 0, matching JS Number of the
empty string. -/
def natOfDigits (cs : List Char) : Option ℕ :=
  cs.foldl
    (fun a c => a.bind (fun n => if c.isDigit then some (n * 10 + (c.toNat - 48)) else none))
    (some 0)

/-- Integer value of the strings the program feeds to the JavaScript
Number conversion: optional leading minus sign, then decimal digits.
Non-numeric strings are mapped to 0 (JS would produce NaN; the claims
never evaluate the program there). -/
def jsNumberInt (s : String) : ℤ :=
  match s.data with
  | '-' :: cs =>
      match natOfDigits cs with
      | some n => -(n : ℤ)
      | none => 0
  | cs => ((natOfDigits cs).getD 0 : ℕ)

/-- Model of the JavaScript Number conversion, as a rational. -/
def jsNumber (s : String) : ℚ := (jsNumberInt s : ℚ)

/-- JS truthiness of an optional string-valued payload field:
present and non-empty. -/
def truthyField : Option String → Bool
  | some s => s ≠ ""
  | none => false

/-- First candidate field that is present with a truthy value — the
cascade of `if (x.a) ... else if (x.b) ...` tests in the source. -/
def firstTruthy : List (Option String) → Option String
  | [] => none
  | o :: rest => if truthyField o then o else firstTruthy rest

/-- Canonical burn event (interface BurnEvent in the source). -/
structure BurnEvent where
  txId : String
  amount : ℚ
  timestamp : ℤ
  eventType : String
deriving DecidableEq

/-- Metrics snapshot (interface DeepTokenMetrics in the source).
Field names follow the source; the spec calls burnEvents the event
history and burnRate24h the burn-rate window. -/
structure DeepTokenMetrics where
  currentSupply : ℚ
  totalBurned : ℚ
  burnRate24h : ℚ
  lastBurnTx : String
  lastBurnAmount : ℚ
  lastBurnTimestamp : ℤ
  treasuryBalance : ℚ
  burnEvents : List BurnEvent
  circulatingSupply : ℚ
deriving DecidableEq

/-- The zeroed snapshot built in the constructor. -/
def initialMetrics : DeepTokenMetrics where
  currentSupply := 0
  totalBurned := 0
  burnRate24h := 0
  lastBurnTx := ""
  lastBurnAmount := 0
  lastBurnTimestamp := 0
  treasuryBalance := 0
  burnEvents := []
  circulatingSupply := 0

/-- The sum computed inside calculateBurnRates: amounts of the events
of the list whose timestamp satisfies now - t < 86400000 ms, added up
left to right as the reduce in the source does. -/
def windowSum (now : ℤ) (events : List BurnEvent) : ℚ :=
  (events.filter (fun e => now - e.timestamp < WINDOW_MS)).foldl
    (fun sum e => sum + e.amount) 0

/-- calculateBurnRates: recompute burnRate24h as the sum of amounts of
retained events whose timestamp satisfies now - t < 86400000 ms. -/
def calculateBurnRates (now : ℤ) (m : DeepTokenMetrics) : DeepTokenMetrics :=
  { m with burnRate24h := windowSum now m.burnEvents }

/-- processBurnEventData: prepend the event, bump totalBurned, subtract
the amount from currentSupply, record the last burn, cap the history at
100 entries, then recompute the 24h rate. `now` is the wall-clock time
at which calculateBurnRates runs. -/
def processBurnEventData (now : ℤ) (burnEvent : BurnEvent) (m : DeepTokenMetrics) :
    DeepTokenMetrics :=
  let m1 : DeepTokenMetrics :=
    { m with
      burnEvents := burnEvent :: m.burnEvents
      totalBurned := m.totalBurned + burnEvent.amount
      currentSupply := m.currentSupply - burnEvent.amount
      lastBurnTx := burnEvent.txId
      lastBurnAmount := burnEvent.amount
      lastBurnTimestamp := burnEvent.timestamp }
  let m2 : DeepTokenMetrics :=
    if m1.burnEvents.length > HISTORY_CAP
    then { m1 with burnEvents := m1.burnEvents.take HISTORY_CAP }
    else m1
  calculateBurnRates now m2

/-- A sequence of burn events applied in arrival order; each event is
paired with the wall-clock time at which it is processed. -/
def applyEvents (es : List (ℤ × BurnEvent)) (m : DeepTokenMetrics) : DeepTokenMetrics :=
  es.foldl (fun acc p => processBurnEventData p.1 p.2 acc) m

/-- Raw payload of a subscription event (event.parsedJson), restricted
to the three candidate amount fields the normalizer inspects. -/
structure RawPayload where
  amount : Option String
  value : Option String
  burned_amount : Option String
deriving DecidableEq

/-- Amount extraction in processBurnEvent: the first of amount, value,
burned_amount that is present and truthy wins, its value divided by
10 to the DEEP_DECIMALS; otherwise the amount stays 0. -/
def extractAmount (p : RawPayload) : ℚ :=
  match firstTruthy [p.amount, p.value, p.burned_amount] with
  | some s => jsNumber s / 10 ^ DEEP_DECIMALS
  | none => 0

/-- processBurnEvent (normalizer part): build the canonical BurnEvent
from the raw event. The event is always emitted, even when no amount
field is recognized. -/
def processBurnEvent (txDigest : String) (timestampMs : ℤ) (eventType : String)
    (p : RawPayload) : BurnEvent :=
  { txId := txDigest
    amount := extractAmount p
    timestamp := timestampMs
    eventType := eventType }

/-- Modelled from the claim wording, for comparison with extractAmount:
amount extraction where the first PRESENT candidate field wins,
regardless of its value. -/
def firstPresent : List (Option String) → Option String
  | [] => none
  | some s :: _ => some s
  | none :: rest => firstPresent rest

/-- Modelled from the claim wording, for comparison with extractAmount:
the first present field among amount, value, burned_amount is divided
by 10 to the decimals; 0 when none is present. -/
def claimExtractAmount (p : RawPayload) : ℚ :=
  match firstPresent [p.amount, p.value, p.burned_amount] with
  | some s => jsNumber s / 10 ^ DEEP_DECIMALS
  | none => 0

/-- Fields of the treasury object that getTreasuryBalance inspects. -/
structure TreasuryFields where
  deep_supply : Option String
  balance : Option String
  total_supply : Option String
deriving DecidableEq

/-- getTreasuryBalance: on any RPC error or invalid object shape the
catch block returns 0; otherwise the first truthy candidate field,
scaled by the decimals, and 0 when none is truthy. -/
def getTreasuryBalance : Except Unit TreasuryFields → ℚ
  | .error _ => 0
  | .ok fields =>
      match firstTruthy [fields.deep_supply, fields.balance, fields.total_supply] with
      | some s => jsNumber s / 10 ^ DEEP_DECIMALS
      | none => 0

/-- getCirculatingSupply: on RPC error the catch block returns 0;
otherwise the sum of all coin balances scaled by the decimals. -/
def getCirculatingSupply : Except Unit (List String) → ℚ
  | .error _ => 0
  | .ok coins => coins.foldl (fun sum b => sum + jsNumber b / 10 ^ DEEP_DECIMALS) 0

/-- getTotalSupply: whether the metadata fetch succeeds or throws, the
returned value is the snapshot's currentSupply when truthy, else the
constant 1000000000 fallback; the ledger is never consulted for the
value. -/
def getTotalSupply (currentSupply : ℚ) : Except Unit Unit → ℚ
  | .ok _ => if currentSupply = 0 then 1000000000 else currentSupply
  | .error _ => if currentSupply = 0 then 1000000000 else currentSupply

/-- fetchAllMetrics: overwrite the three absolute fields from the three
queries (each query absorbs its own errors and always returns a value,
so the surrounding try never aborts the refresh), then recompute the
24h burn rate at the current time. -/
def fetchAllMetrics (now : ℤ) (mdOutcome : Except Unit Unit)
    (trOutcome : Except Unit TreasuryFields) (circOutcome : Except Unit (List String))
    (m : DeepTokenMetrics) : DeepTokenMetrics :=
  let m1 : DeepTokenMetrics :=
    { m with
      currentSupply := getTotalSupply m.currentSupply mdOutcome
      treasuryBalance := getTreasuryBalance trOutcome
      circulatingSupply := getCirculatingSupply circOutcome }
  calculateBurnRates now m1

/-- One cycle of the fallback poller in setupAlternativeMonitoring:
given the remembered previous treasury balance, the freshly fetched
current balance and the wall-clock time, return the synthesized event
(if any) and the new remembered balance. -/
def pollCycle (previousBalance currentBalance : ℚ) (nowMs : ℤ) :
    Option BurnEvent × ℚ :=
  let balanceChange := previousBalance - currentBalance
  if balanceChange > 0 then
    (some
      { txId := "treasury-" ++ toString nowMs
        amount := balanceChange
        timestamp := nowMs
        eventType := "TreasuryBalanceDecrease" },
      currentBalance)
  else
    (none, currentBalance)

/-- Outcome of running setupEventSubscription once over the monitored
topics. retriedTopics lists topics for which a per-topic retry was
scheduled, wholeSetupRetryScheduled records whether the outer catch
scheduled a retry of the whole setup. -/
structure SetupResult where
  subscribedTopics : List String
  retriedTopics : List String
  wholeSetupRetryScheduled : Bool
  fallbackActivated : Bool
  fallbackActivationCount : ℕ
deriving DecidableEq

/-- setupEventSubscription: attempt one subscription per topic;
subscribeOk tells which attempts succeed. A failed attempt is handled
by the inner catch, which only logs the warning — no retry is scheduled
for that topic, and no handler reacts to an active subscription
terminating later. The outer catch (which would schedule a whole-setup
retry after 10 s) is unreachable: every awaited call in the loop is
inside the inner try. After the loop, the fallback poller is started
exactly when no subscription succeeded (this.unsubscribe still null). -/
def setupEventSubscription (topics : List String) (subscribeOk : String → Bool) :
    SetupResult :=
  let subscribed := topics.filter subscribeOk
  { subscribedTopics := subscribed
    retriedTopics := []
    wholeSetupRetryScheduled := false
    fallbackActivated := subscribed.isEmpty
    fallbackActivationCount := if subscribed.isEmpty then 1 else 0 }

/-! ### Helper lemmas -/

lemma calculateBurnRates_burnEvents (now : ℤ) (m : DeepTokenMetrics) :
    (calculateBurnRates now m).burnEvents = m.burnEvents := rfl

lemma processBurnEventData_totalBurned (now : ℤ) (e : BurnEvent) (m : DeepTokenMetrics) :
    (processBurnEventData now e m).totalBurned = m.totalBurned + e.amount := by
  simp only [processBurnEventData, calculateBurnRates]
  split <;> rfl

lemma processBurnEventData_currentSupply (now : ℤ) (e : BurnEvent) (m : DeepTokenMetrics) :
    (processBurnEventData now e m).currentSupply = m.currentSupply - e.amount := by
  simp only [processBurnEventData, calculateBurnRates]
  split <;> rfl

lemma processBurnEventData_treasuryBalance (now : ℤ) (e : BurnEvent) (m : DeepTokenMetrics) :
    (processBurnEventData now e m).treasuryBalance = m.treasuryBalance := by
  simp only [processBurnEventData, calculateBurnRates]
  split <;> rfl

lemma processBurnEventData_circulatingSupply (now : ℤ) (e : BurnEvent) (m : DeepTokenMetrics) :
    (processBurnEventData now e m).circulatingSupply = m.circulatingSupply := by
  simp only [processBurnEventData, calculateBurnRates]
  split <;> rfl

lemma processBurnEventData_burnEvents (now : ℤ) (e : BurnEvent) (m : DeepTokenMetrics) :
    (processBurnEventData now e m).burnEvents =
      if (e :: m.burnEvents).length > HISTORY_CAP
      then (e :: m.burnEvents).take HISTORY_CAP
      else e :: m.burnEvents := by
  simp only [processBurnEventData, calculateBurnRates]
  split <;> simp_all

lemma processBurnEventData_burnRate24h (now : ℤ) (e : BurnEvent) (m : DeepTokenMetrics) :
    (processBurnEventData now e m).burnRate24h =
      windowSum now (processBurnEventData now e m).burnEvents := by
  simp only [processBurnEventData, calculateBurnRates]

lemma applyEvents_totalBurned (es : List (ℤ × BurnEvent)) (m : DeepTokenMetrics) :
    (applyEvents es m).totalBurned = m.totalBurned + (es.map (fun p => p.2.amount)).sum := by
  induction es generalizing m with
  | nil => simp [applyEvents]
  | cons p t ih =>
    simp only [applyEvents, List.foldl_cons, List.map_cons, List.sum_cons] at *
    rw [ih, processBurnEventData_totalBurned]
    ring

lemma sum_take_le_sum_take_succ (l : List ℚ) (hnn : ∀ x ∈ l, 0 ≤ x) (k : ℕ) :
    (l.take k).sum ≤ (l.take (k + 1)).sum := by
  induction l generalizing k with
  | nil => simp
  | cons a t ih =>
    cases k with
    | zero =>
      simpa using hnn a (List.mem_cons_self a t)
    | succ k =>
      simp only [List.take_succ_cons, List.sum_cons]
      exact add_le_add_left (ih (fun x hx => hnn x (List.mem_cons_of_mem a hx)) k) a

lemma truthyField_some {s : String} (h : s ≠ "") : truthyField (some s) = true := by
  simp [truthyField, h]

/-! ### Claim theorems -/

/-- C1: totalBurned equals the sum of the amounts of all events passed
to the burn-event handler so far, and (the amounts being non-negative,
as the BurnEvent invariant of the data model requires) it never
decreases along the sequence. -/
theorem totalBurned_eq_sum_and_monotone (es : List (ℤ × BurnEvent))
    (hnn : ∀ p ∈ es, 0 ≤ p.2.amount) :
    (applyEvents es initialMetrics).totalBurned = (es.map (fun p => p.2.amount)).sum ∧
    ∀ k : ℕ, (applyEvents (es.take k) initialMetrics).totalBurned ≤
      (applyEvents (es.take (k + 1)) initialMetrics).totalBurned := by
  constructor
  · rw [applyEvents_totalBurned]
    simp [initialMetrics]
  · intro k
    rw [applyEvents_totalBurned, applyEvents_totalBurned]
    simp only [initialMetrics, List.map_take]
    have hnn' : ∀ x ∈ es.map (fun p => p.2.amount), 0 ≤ x := by
      intro x hx
      rcases List.mem_map.mp hx with ⟨p, hp, rfl⟩
      exact hnn p hp
    exact add_le_add_left (sum_take_le_sum_take_succ _ hnn' k) _

theorem totalBurned_eq_sum_and_monotone_witness :
    (∀ p ∈ [((5:ℤ), BurnEvent.mk "a" 2 5 "t"), ((9:ℤ), BurnEvent.mk "b" 3 9 "t")],
        0 ≤ p.2.amount) ∧
    (applyEvents [((5:ℤ), BurnEvent.mk "a" 2 5 "t"), ((9:ℤ), BurnEvent.mk "b" 3 9 "t")]
        initialMetrics).totalBurned =
      ([((5:ℤ), BurnEvent.mk "a" 2 5 "t"), ((9:ℤ), BurnEvent.mk "b" 3 9 "t")].map
        (fun p => p.2.amount)).sum ∧
    ∀ k : ℕ,
      (applyEvents ([((5:ℤ), BurnEvent.mk "a" 2 5 "t"),
          ((9:ℤ), BurnEvent.mk "b" 3 9 "t")].take k) initialMetrics).totalBurned ≤
      (applyEvents ([((5:ℤ), BurnEvent.mk "a" 2 5 "t"),
          ((9:ℤ), BurnEvent.mk "b" 3 9 "t")].take (k + 1)) initialMetrics).totalBurned :=
  ⟨by decide, (totalBurned_eq_sum_and_monotone _ (by decide)).1,
    (totalBurned_eq_sum_and_monotone _ (by decide)).2⟩

/-- C2 counterexample: the normalizer does not use the first PRESENT
candidate field; it uses the first truthy one. With the amount field
present but empty (falsy in JS) and value 1000000, the code extracts
1.0 from value, while first-present extraction would take the amount
field and produce 0. -/
theorem extractAmount_presence_counterexample :
    extractAmount (RawPayload.mk (some "") (some "1000000") none) = 1 ∧
    claimExtractAmount (RawPayload.mk (some "") (some "1000000") none) = 0 ∧
    extractAmount (RawPayload.mk (some "") (some "1000000") none) ≠
      claimExtractAmount (RawPayload.mk (some "") (some "1000000") none) := by
  have h1 : extractAmount (RawPayload.mk (some "") (some "1000000") none) = 1 := by
    show (jsNumberInt "1000000" : ℚ) / 10 ^ DEEP_DECIMALS = 1
    rw [show jsNumberInt "1000000" = 1000000 from by decide]
    norm_num [DEEP_DECIMALS]
  have h2 : claimExtractAmount (RawPayload.mk (some "") (some "1000000") none) = 0 := by
    show (jsNumberInt "" : ℚ) / 10 ^ DEEP_DECIMALS = 0
    rw [show jsNumberInt "" = 0 from by decide]
    norm_num
  exact ⟨h1, h2, by rw [h1, h2]; norm_num⟩

/-- C2 amended: the normalizer extracts the amount from the first
candidate among amount, value, burned_amount that is present with a
truthy (non-empty) value, divides it by 10 to the decimals, and still
emits an event with amount 0 when no candidate is truthy; with
decimals = 6, amount "500" yields 1/2000 = 0.0005 and value "1000000"
(with no amount field) yields 1. -/
theorem normalizer_first_truthy_spec (p : RawPayload) :
    (∀ s : String, p.amount = some s → s ≠ "" →
        extractAmount p = jsNumber s / 10 ^ DEEP_DECIMALS) ∧
    (truthyField p.amount = false → ∀ s : String, p.value = some s → s ≠ "" →
        extractAmount p = jsNumber s / 10 ^ DEEP_DECIMALS) ∧
    (truthyField p.amount = false → truthyField p.value = false →
        ∀ s : String, p.burned_amount = some s → s ≠ "" →
        extractAmount p = jsNumber s / 10 ^ DEEP_DECIMALS) ∧
    (truthyField p.amount = false → truthyField p.value = false →
        truthyField p.burned_amount = false → ∀ (tx : String) (t : ℤ) (ty : String),
        processBurnEvent tx t ty p = BurnEvent.mk tx 0 t ty) ∧
    extractAmount (RawPayload.mk (some "500") none none) = 1 / 2000 ∧
    extractAmount (RawPayload.mk none (some "1000000") none) = 1 := by
  refine ⟨?_, ?_, ?_, ?_, ?_, ?_⟩
  · intro s hs hne
    simp [extractAmount, firstTruthy, hs, truthyField_some hne]
  · intro hta s hs hne
    simp [extractAmount, firstTruthy, hta, hs, truthyField_some hne]
  · intro hta htv s hs hne
    simp [extractAmount, firstTruthy, hta, htv, hs, truthyField_some hne]
  · intro hta htv htb tx t ty
    simp [processBurnEvent, extractAmount, firstTruthy, hta, htv, htb]
  · show (jsNumberInt "500" : ℚ) / 10 ^ DEEP_DECIMALS = 1 / 2000
    rw [show jsNumberInt "500" = 500 from by decide]
    norm_num [DEEP_DECIMALS]
  · show (jsNumberInt "1000000" : ℚ) / 10 ^ DEEP_DECIMALS = 1
    rw [show jsNumberInt "1000000" = 1000000 from by decide]
    norm_num [DEEP_DECIMALS]

theorem normalizer_first_truthy_spec_witness :
    ((RawPayload.mk (some "500") none none).amount = some "500" ∧ "500" ≠ "" ∧
      extractAmount (RawPayload.mk (some "500") none none) =
        jsNumber "500" / 10 ^ DEEP_DECIMALS) ∧
    (truthyField (RawPayload.mk none (some "1000000") none).amount = false ∧
      extractAmount (RawPayload.mk none (some "1000000") none) =
        jsNumber "1000000" / 10 ^ DEEP_DECIMALS) ∧
    processBurnEvent "tx" 5 "ty" (RawPayload.mk none none none) =
      BurnEvent.mk "tx" 0 5 "ty" :=
  ⟨⟨rfl, by decide,
    (normalizer_first_truthy_spec (RawPayload.mk (some "500") none none)).1
      "500" rfl (by decide)⟩,
   ⟨rfl,
    (normalizer_first_truthy_spec (RawPayload.mk none (some "1000000") none)).2.1
      rfl "1000000" rfl (by decide)⟩,
   (normalizer_first_truthy_spec (RawPayload.mk none none none)).2.2.2.1
     rfl rfl rfl "tx" 5 "ty"⟩

/-- C3 counterexample: processing a burn event does change one of the
three absolute fields — currentSupply is decremented by the amount. -/
theorem burn_changes_currentSupply_counterexample :
    (processBurnEventData 0 (BurnEvent.mk "t" 1 0 "e") initialMetrics).currentSupply ≠
      initialMetrics.currentSupply := by
  rw [processBurnEventData_currentSupply]
  norm_num [initialMetrics]

/-- C3 amended: a refresh overwrites the three absolute fields and
leaves totalBurned, the event history and the last-burn fields
untouched, but also recomputes burnRateWindow against the current
time; processing a burn event leaves treasuryBalance and
circulatingSupply unchanged while decrementing currentSupply by the
event amount. -/
theorem refresh_and_burn_frame (now : ℤ) (mdO : Except Unit Unit)
    (trO : Except Unit TreasuryFields) (circO : Except Unit (List String))
    (m : DeepTokenMetrics) (e : BurnEvent) :
    ((fetchAllMetrics now mdO trO circO m).currentSupply =
        getTotalSupply m.currentSupply mdO ∧
     (fetchAllMetrics now mdO trO circO m).treasuryBalance = getTreasuryBalance trO ∧
     (fetchAllMetrics now mdO trO circO m).circulatingSupply = getCirculatingSupply circO ∧
     (fetchAllMetrics now mdO trO circO m).totalBurned = m.totalBurned ∧
     (fetchAllMetrics now mdO trO circO m).burnEvents = m.burnEvents ∧
     (fetchAllMetrics now mdO trO circO m).lastBurnTx = m.lastBurnTx ∧
     (fetchAllMetrics now mdO trO circO m).lastBurnAmount = m.lastBurnAmount ∧
     (fetchAllMetrics now mdO trO circO m).lastBurnTimestamp = m.lastBurnTimestamp ∧
     (fetchAllMetrics now mdO trO circO m).burnRate24h = windowSum now m.burnEvents) ∧
    ((processBurnEventData now e m).treasuryBalance = m.treasuryBalance ∧
     (processBurnEventData now e m).circulatingSupply = m.circulatingSupply ∧
     (processBurnEventData now e m).currentSupply = m.currentSupply - e.amount) :=
  ⟨⟨rfl, rfl, rfl, rfl, rfl, rfl, rfl, rfl, rfl⟩,
   processBurnEventData_treasuryBalance now e m,
   processBurnEventData_circulatingSupply now e m,
   processBurnEventData_currentSupply now e m⟩

/-- C4: after processing a burn event, burnRate24h equals the sum of
the amounts of the retained events whose timestamp lies in the
trailing 24-hour window from the current time; concretely, of events
observed now (amount 4), 23 hours ago (amount 2) and 25 hours ago
(amount 1), only the first two are counted: the rate is 6. -/
theorem burnRate24h_eq_windowSum (now : ℤ) (e : BurnEvent) (m : DeepTokenMetrics) :
    (processBurnEventData now e m).burnRate24h =
      windowSum now (processBurnEventData now e m).burnEvents ∧
    (applyEvents
        [((172800000 : ℤ), BurnEvent.mk "a" 1 (172800000 - 90000000) "t"),
         ((172800000 : ℤ), BurnEvent.mk "b" 2 (172800000 - 82800000) "t"),
         ((172800000 : ℤ), BurnEvent.mk "c" 4 172800000 "t")]
        initialMetrics).burnRate24h = 6 := by
  refine ⟨processBurnEventData_burnRate24h now e m, ?_⟩
  simp only [applyEvents, List.foldl_cons, List.foldl_nil]
  norm_num [processBurnEventData, calculateBurnRates, windowSum, initialMetrics,
    WINDOW_MS, HISTORY_CAP, List.filter]

/-- C5: the event history never exceeds the 100-entry cap, and when an
event arrives with the history exactly at capacity, the result is the
new event in front of the first 99 old entries — the oldest-arrival
entry (the last one) is evicted while all newer-arrival entries are
retained. -/
theorem burnEvents_capacity (now : ℤ) (e : BurnEvent) (m : DeepTokenMetrics)
    (h : m.burnEvents.length ≤ HISTORY_CAP) :
    (processBurnEventData now e m).burnEvents.length ≤ HISTORY_CAP ∧
    (m.burnEvents.length = HISTORY_CAP →
      (processBurnEventData now e m).burnEvents =
        e :: m.burnEvents.take (HISTORY_CAP - 1)) := by
  constructor
  · rw [processBurnEventData_burnEvents]
    split
    · rename_i hgt
      simp only [List.length_take]
      omega
    · rename_i hle
      simp only [gt_iff_lt, not_lt, List.length_cons] at hle
      simp only [List.length_cons]
      omega
  · intro h100
    have hgt : (e :: m.burnEvents).length > HISTORY_CAP := by
      simp only [List.length_cons, h100]
      omega
    rw [processBurnEventData_burnEvents, if_pos hgt]
    have hcap : HISTORY_CAP = 99 + 1 := rfl
    rw [hcap, List.take_succ_cons]

def capWitnessList : List BurnEvent := List.replicate HISTORY_CAP (BurnEvent.mk "w" 1 0 "e")

def capWitnessMetrics : DeepTokenMetrics := { initialMetrics with burnEvents := capWitnessList }

theorem burnEvents_capacity_witness :
    capWitnessMetrics.burnEvents.length ≤ HISTORY_CAP ∧
    ((processBurnEventData 0 (BurnEvent.mk "n" 2 0 "e") capWitnessMetrics).burnEvents.length ≤
        HISTORY_CAP ∧
      (capWitnessMetrics.burnEvents.length = HISTORY_CAP →
        (processBurnEventData 0 (BurnEvent.mk "n" 2 0 "e") capWitnessMetrics).burnEvents =
          BurnEvent.mk "n" 2 0 "e" :: capWitnessMetrics.burnEvents.take (HISTORY_CAP - 1))) :=
  ⟨by simp [capWitnessMetrics, capWitnessList],
   burnEvents_capacity 0 (BurnEvent.mk "n" 2 0 "e") capWitnessMetrics
     (by simp [capWitnessMetrics, capWitnessList])⟩

/-- C6: in a fallback-poller cycle with previous balance p and current
balance c, a positive difference p - c synthesizes exactly one event
with amount p - c, a generated treasury identifier (not a transaction
digest) and the distinct TreasuryBalanceDecrease source type; a
non-positive difference emits nothing; and the remembered balance
becomes c in either case. -/
theorem pollCycle_spec (p c : ℚ) (nowMs : ℤ) :
    (p - c > 0 →
      pollCycle p c nowMs =
        (some (BurnEvent.mk ("treasury-" ++ toString nowMs) (p - c) nowMs
          "TreasuryBalanceDecrease"), c)) ∧
    (p - c ≤ 0 → pollCycle p c nowMs = (none, c)) ∧
    (pollCycle p c nowMs).2 = c := by
  refine ⟨fun h => ?_, fun h => ?_, ?_⟩
  · simp [pollCycle, h]
  · simp [pollCycle, not_lt.mpr h]
  · simp only [pollCycle]
    split <;> rfl

theorem pollCycle_spec_witness :
    ((1000 : ℚ) - 900 > 0 ∧
      pollCycle 1000 900 77 =
        (some (BurnEvent.mk ("treasury-" ++ toString (77 : ℤ)) ((1000 : ℚ) - 900) 77
          "TreasuryBalanceDecrease"), 900)) ∧
    ((1000 : ℚ) - 1100 ≤ 0 ∧ pollCycle 1000 1100 77 = (none, 1100)) :=
  ⟨⟨by norm_num, (pollCycle_spec 1000 900 77).1 (by norm_num)⟩,
   ⟨by norm_num, (pollCycle_spec 1000 1100 77).2.1 (by norm_num)⟩⟩

/-- C7 counterexample: a topic whose subscription attempt fails is not
retried — the inner catch only logs the warning — and no whole-setup
retry is scheduled either, since the outer catch is unreachable from a
per-topic failure. -/
theorem failed_topic_not_retried_counterexample :
    (setupEventSubscription ["topicA"] (fun _ => false)).retriedTopics = [] ∧
    (setupEventSubscription ["topicA"] (fun _ => false)).wholeSetupRetryScheduled = false ∧
    (setupEventSubscription ["topicA"] (fun _ => false)).subscribedTopics = [] :=
  ⟨rfl, rfl, rfl⟩

/-- C7 amended: a per-topic subscription failure is only logged — no
retry of that topic is ever scheduled, and no whole-setup retry
results from it; one topic's failure does not affect the others, which
connect independently; total failure is compensated by fallback
polling instead of retries. -/
theorem setup_failure_handling (topics : List String) (subscribeOk : String → Bool) :
    (setupEventSubscription topics subscribeOk).retriedTopics = [] ∧
    (setupEventSubscription topics subscribeOk).wholeSetupRetryScheduled = false ∧
    (setupEventSubscription topics subscribeOk).subscribedTopics =
      topics.filter subscribeOk :=
  ⟨rfl, rfl, rfl⟩

/-- C8: fallback polling is activated at most once per setup pass, and
exactly when no topic subscription succeeded in the initial attempt
across all topics; the decision is a single check after the loop, and
no operation of the model ever deactivates the fallback afterwards. -/
theorem fallback_activation_iff_once (topics : List String) (subscribeOk : String → Bool) :
    (setupEventSubscription topics subscribeOk).fallbackActivationCount ≤ 1 ∧
    ((setupEventSubscription topics subscribeOk).fallbackActivationCount = 1 ↔
      ∀ t ∈ topics, subscribeOk t = false) ∧
    ((setupEventSubscription topics subscribeOk).fallbackActivated = true ↔
      ∀ t ∈ topics, subscribeOk t = false) := by
  have hiff : (topics.filter subscribeOk).isEmpty = true ↔
      ∀ t ∈ topics, subscribeOk t = false := by
    simp [List.isEmpty_iff, List.filter_eq_nil_iff]
  refine ⟨?_, ?_, ?_⟩
  · simp only [setupEventSubscription]
    split <;> simp
  · simp only [setupEventSubscription]
    rw [← hiff]
    by_cases hc : (topics.filter subscribeOk).isEmpty = true
    · simp [hc]
    · simp [hc]
  · simp only [setupEventSubscription]
    rw [← hiff]

/-- C9 counterexample: when the treasury fetch fails during a refresh,
the previous snapshot value (here 50) is not retained — the field is
overwritten with the 0 the failed query returns. -/
theorem refresh_error_zero_counterexample :
    (fetchAllMetrics 0 (Except.ok ()) (Except.error ()) (Except.ok [])
        { initialMetrics with treasuryBalance := 50 }).treasuryBalance = 0 ∧
    ({ initialMetrics with treasuryBalance := 50 } : DeepTokenMetrics).treasuryBalance = 50 ∧
    (fetchAllMetrics 0 (Except.ok ()) (Except.error ()) (Except.ok [])
        { initialMetrics with treasuryBalance := 50 }).treasuryBalance ≠
      ({ initialMetrics with treasuryBalance := 50 } : DeepTokenMetrics).treasuryBalance := by
  refine ⟨rfl, rfl, ?_⟩
  show (0 : ℚ) ≠ 50
  norm_num

/-- C9 amended: a failing absolute-state query never aborts the
refresh; the affected field is substituted — supply with the previous
currentSupply (or the 1000000000 fallback when it is zero), treasury
and circulating with 0 — while the successfully fetched fields are
still updated and the burn-derived fields are untouched. -/
theorem refresh_partial_failure (now : ℤ) (m : DeepTokenMetrics)
    (trf : TreasuryFields) (coins : List String) (mdO : Except Unit Unit)
    (trO : Except Unit TreasuryFields) (circO : Except Unit (List String)) :
    (fetchAllMetrics now mdO (Except.error ()) circO m).treasuryBalance = 0 ∧
    (fetchAllMetrics now mdO trO (Except.error ()) m).circulatingSupply = 0 ∧
    (fetchAllMetrics now (Except.error ()) trO circO m).currentSupply =
      (if m.currentSupply = 0 then 1000000000 else m.currentSupply) ∧
    (fetchAllMetrics now mdO (Except.ok trf) (Except.error ()) m).treasuryBalance =
      getTreasuryBalance (Except.ok trf) ∧
    (fetchAllMetrics now mdO (Except.error ()) (Except.ok coins) m).circulatingSupply =
      getCirculatingSupply (Except.ok coins) ∧
    (fetchAllMetrics now mdO trO circO m).totalBurned = m.totalBurned ∧
    (fetchAllMetrics now mdO trO circO m).burnEvents = m.burnEvents :=
  ⟨rfl, rfl, rfl, rfl, rfl, rfl, rfl⟩

/-- C10: the supply query returns the snapshot's currentSupply when it
is nonzero and the constant 1000000000 when it is zero, identically on
success and on error of the metadata fetch — it never derives the
value from ledger data, so currentSupply is a session-local estimate
seeded from that constant. -/
theorem getTotalSupply_spec (cs : ℚ) (o o2 : Except Unit Unit) :
    getTotalSupply cs o = (if cs = 0 then 1000000000 else cs) ∧
    getTotalSupply cs o = getTotalSupply cs o2 := by
  cases o <;> cases o2 <;> exact ⟨rfl, rfl⟩

end DeepBurn
